import Mathlib

/-!
Verification of the GIS JSON flattener core (`gisv2_app.py`) against its
natural-language specification.

The development shallowly embeds the pure core of the application:
the flattener `flatten_json_data`/`flatten_dict`, the SEC-GIS mapper
`map_sec_gis_fields`, the value normalizer `normalize_value`, the similarity
scorer `similarity_score` (a model of `difflib.SequenceMatcher` as invoked
with `isjunk=None`), and the reconciliation engine
`compare_with_ground_truth` together with its static tables
(`field_mappings`, `single_entry_fields`).

Python dictionaries are modelled as association lists with Python's
insertion semantics (`dinsert`, `pydict`): inserting an existing key
overwrites the value in place, a new key is appended.  Machine floats of the
scorer are modelled as exact rationals (the scores at issue, `0`, `1` and
the thresholds `0.9`/`0.7`, are exact in both representations).
-/

namespace GisApp

/-! ## Association lists with Python dict semantics -/

/-- First-match lookup in an association list; Python `d[k]` / `k in d`. -/
def alookup {κ α : Type} [DecidableEq κ] : List (κ × α) → κ → Option α
  | [], _ => none
  | (k, v) :: rest, key => if k = key then some v else alookup rest key

/-- Python dict insertion `d[k] = v`: an existing key keeps its position and
gets the new value, a fresh key is appended at the end. -/
def dinsert {κ α : Type} [DecidableEq κ] : List (κ × α) → κ → α → List (κ × α)
  | [], k, v => [(k, v)]
  | (k', v') :: rest, k, v =>
      if k' = k then (k, v) :: rest else (k', v') :: dinsert rest k v

/-- Python `dict(pairs)`: insert the pairs left to right into an empty dict. -/
def pydict {κ α : Type} [DecidableEq κ] (l : List (κ × α)) : List (κ × α) :=
  l.foldl (fun m p => dinsert m p.1 p.2) []

theorem mem_dinsert {κ α : Type} [DecidableEq κ]
    {x : κ × α} {m : List (κ × α)} {k : κ} {v : α} :
    x ∈ dinsert m k v → x = (k, v) ∨ x ∈ m := by
  induction m with
  | nil => intro h; simpa [dinsert] using h
  | cons p rest ih =>
    obtain ⟨k', v'⟩ := p
    intro h
    by_cases hk : k' = k
    · simp only [dinsert, if_pos hk] at h
      rcases List.mem_cons.mp h with h | h
      · exact Or.inl h
      · exact Or.inr (List.mem_cons_of_mem _ h)
    · simp only [dinsert, if_neg hk] at h
      rcases List.mem_cons.mp h with h | h
      · exact Or.inr (by simp [h])
      · rcases ih h with h | h
        · exact Or.inl h
        · exact Or.inr (List.mem_cons_of_mem _ h)

theorem mem_pydict {κ α : Type} [DecidableEq κ]
    {x : κ × α} {l : List (κ × α)} (h : x ∈ pydict l) : x ∈ l := by
  suffices H : ∀ (l : List (κ × α)) (acc : List (κ × α)),
      x ∈ l.foldl (fun m p => dinsert m p.1 p.2) acc → x ∈ acc ∨ x ∈ l by
    rcases H l [] h with h' | h'
    · simp at h'
    · exact h'
  intro l
  induction l with
  | nil => intro acc h; exact Or.inl h
  | cons p rest ih =>
    intro acc h
    rcases ih (dinsert acc p.1 p.2) h with h' | h'
    · rcases mem_dinsert h' with h'' | h''
      · exact Or.inr (by simp [h''])
      · exact Or.inl h''
    · exact Or.inr (List.mem_cons_of_mem _ h')

theorem keys_dinsert {κ α : Type} [DecidableEq κ]
    (m : List (κ × α)) (k : κ) (v : α) :
    (dinsert m k v).map Prod.fst =
      if k ∈ m.map Prod.fst then m.map Prod.fst else m.map Prod.fst ++ [k] := by
  induction m with
  | nil => simp [dinsert]
  | cons p rest ih =>
    obtain ⟨k', v'⟩ := p
    by_cases hk : k' = k
    · subst hk; simp [dinsert]
    · simp only [dinsert, if_neg hk, List.map_cons, ih]
      by_cases hmem : k ∈ rest.map Prod.fst
      · simp [hmem, Ne.symm hk]
      · simp [hmem, Ne.symm hk]

theorem nodup_keys_dinsert {κ α : Type} [DecidableEq κ]
    {m : List (κ × α)} (h : (m.map Prod.fst).Nodup) (k : κ) (v : α) :
    ((dinsert m k v).map Prod.fst).Nodup := by
  rw [keys_dinsert]
  by_cases hmem : k ∈ m.map Prod.fst
  · simpa [hmem] using h
  · simp only [hmem, if_false]
    exact List.Nodup.append h (List.nodup_singleton k) (by simpa using hmem)

theorem nodup_keys_pydict {κ α : Type} [DecidableEq κ] (l : List (κ × α)) :
    ((pydict l).map Prod.fst).Nodup := by
  suffices H : ∀ (l acc : List (κ × α)), (acc.map Prod.fst).Nodup →
      ((l.foldl (fun m p => dinsert m p.1 p.2) acc).map Prod.fst).Nodup from
    H l [] (by simp)
  intro l
  induction l with
  | nil => intro acc h; exact h
  | cons p rest ih =>
    intro acc h
    exact ih _ (nodup_keys_dinsert h p.1 p.2)

theorem dinsert_of_not_mem {κ α : Type} [DecidableEq κ]
    {m : List (κ × α)} {k : κ} (h : k ∉ m.map Prod.fst) (v : α) :
    dinsert m k v = m ++ [(k, v)] := by
  induction m with
  | nil => simp [dinsert]
  | cons p rest ih =>
    obtain ⟨k', v'⟩ := p
    simp only [List.map_cons, List.mem_cons, not_or] at h
    simp [dinsert, Ne.symm h.1, ih h.2]

theorem pydict_eq_self {κ α : Type} [DecidableEq κ]
    {l : List (κ × α)} (h : (l.map Prod.fst).Nodup) : pydict l = l := by
  suffices H : ∀ (l acc : List (κ × α)), ((acc ++ l).map Prod.fst).Nodup →
      l.foldl (fun m p => dinsert m p.1 p.2) acc = acc ++ l by
    simpa using H l [] (by simpa using h)
  intro l
  induction l with
  | nil => intro acc _; simp
  | cons p rest ih =>
    intro acc hacc
    rw [List.map_append] at hacc
    rcases List.nodup_append.mp hacc with ⟨_, _, hdisj⟩
    have hnot : p.1 ∉ acc.map Prod.fst := fun hmem => hdisj hmem (by simp)
    rw [List.foldl_cons, dinsert_of_not_mem hnot]
    have hacc' : (((acc ++ [p]) ++ rest).map Prod.fst).Nodup := by
      rw [List.append_assoc, List.singleton_append, List.map_append]
      exact hacc
    rw [ih (acc ++ [p]) hacc', List.append_assoc, List.singleton_append]

theorem alookup_eq_of_mem_nodup {κ α : Type} [DecidableEq κ]
    {l : List (κ × α)} {k : κ} {v : α} :
    (l.map Prod.fst).Nodup → (k, v) ∈ l → alookup l k = some v := by
  induction l with
  | nil => intro _ hmem; simp at hmem
  | cons p rest ih =>
    obtain ⟨k', v'⟩ := p
    intro hnd hmem
    simp only [List.map_cons, List.nodup_cons] at hnd
    rcases List.mem_cons.mp hmem with h | h
    · injection h with h1 h2
      subst h1; subst h2
      simp [alookup]
    · have hne : k' ≠ k := by
        rintro rfl
        exact hnd.1 (List.mem_map_of_mem Prod.fst h)
      simp [alookup, hne, ih hnd.2 h]

theorem alookup_eq_none_iff {κ α : Type} [DecidableEq κ]
    (l : List (κ × α)) (k : κ) :
    alookup l k = none ↔ k ∉ l.map Prod.fst := by
  induction l with
  | nil => simp [alookup]
  | cons p rest ih =>
    obtain ⟨k', v'⟩ := p
    by_cases hk : k' = k
    · subst hk; simp [alookup]
    · simp [alookup, hk, ih, Ne.symm hk]

theorem alookup_mem {κ α : Type} [DecidableEq κ]
    {l : List (κ × α)} {k : κ} {v : α} :
    alookup l k = some v → (k, v) ∈ l := by
  induction l with
  | nil => intro h; simp [alookup] at h
  | cons p rest ih =>
    obtain ⟨k', v'⟩ := p
    intro h
    by_cases hk : k' = k
    · subst hk
      have h2 : v' = v := by simpa [alookup] using h
      rw [← h2]
      exact List.mem_cons_self _ _
    · simp only [alookup, if_neg hk] at h
      exact List.mem_cons_of_mem _ (ih h)

/-- Left-biased choice on `Option`, for describing lookups in appended
association lists. -/
def ofirst {α : Type} : Option α → Option α → Option α
  | some v, _ => some v
  | none, o => o

theorem alookup_append {κ α : Type} [DecidableEq κ]
    (xs ys : List (κ × α)) (k : κ) :
    alookup (xs ++ ys) k = ofirst (alookup xs k) (alookup ys k) := by
  induction xs with
  | nil => rfl
  | cons p rest ih =>
    obtain ⟨k', v'⟩ := p
    by_cases hk : k' = k
    · simp [alookup, hk, ofirst]
    · simp [alookup, hk, ih]

theorem alookup_dinsert {κ α : Type} [DecidableEq κ]
    (m : List (κ × α)) (k0 : κ) (v : α) (k : κ) :
    alookup (dinsert m k0 v) k = if k0 = k then some v else alookup m k := by
  induction m with
  | nil => rfl
  | cons p rest ih =>
    obtain ⟨k', v'⟩ := p
    by_cases h0 : k' = k0
    · subst h0
      by_cases hk : k' = k
      · simp [dinsert, alookup, hk]
      · simp [dinsert, alookup, hk]
    · by_cases hk : k' = k
      · subst hk
        have : k0 ≠ k' := fun h => h0 h.symm
        simp [dinsert, h0, alookup, this]
      · simp [dinsert, h0, alookup, hk, ih]

/-- Looking a key up in a Python dict built from a pair list is looking it up
in the reversed list: the last assignment wins. -/
theorem alookup_pydict {κ α : Type} [DecidableEq κ]
    (l : List (κ × α)) (k : κ) :
    alookup (pydict l) k = alookup l.reverse k := by
  suffices H : ∀ (l acc : List (κ × α)) (k : κ),
      alookup (l.foldl (fun m p => dinsert m p.1 p.2) acc) k =
        ofirst (alookup l.reverse k) (alookup acc k) by
    have h := H l [] k
    unfold pydict
    rw [h]
    cases alookup l.reverse k <;> rfl
  intro l
  induction l with
  | nil => intro acc k; rfl
  | cons p l' ih =>
    intro acc k
    rw [List.foldl_cons, ih, List.reverse_cons, alookup_append]
    cases hA : alookup l'.reverse k with
    | some v => rfl
    | none =>
      show alookup (dinsert acc p.1 p.2) k = ofirst (alookup [p] k) (alookup acc k)
      rw [alookup_dinsert]
      by_cases hk : p.1 = k
      · simp [alookup, hk, ofirst]
      · simp [alookup, hk, ofirst]

/-! ## JSON values and the Flattener (`flatten_json_data` / `flatten_dict`)

`Json` models a parsed Python JSON value (`json.loads` output): `None`,
`bool`, numbers (modelled as integers; no claim depends on float formatting),
`str`, `list`, and `dict` with insertion-ordered string keys. -/

inductive Json : Type where
  | null : Json
  | bool : Bool → Json
  | num : Int → Json
  | str : String → Json
  | arr : List Json → Json
  | obj : List (String × Json) → Json

/-- Python `isinstance(item, (dict, list))`. -/
def Json.isComposite : Json → Bool
  | .arr _ => true
  | .obj _ => true
  | _ => false

/-- A value that is not a dict and not a list (`Null | Bool | Number | String`). -/
def Json.isScalar : Json → Bool
  | .arr _ => false
  | .obj _ => false
  | _ => true

/-- `f"{parent_key}{sep}{key}" if parent_key else key` with `sep = "_"`. -/
def joinKey (parentKey key : String) : String :=
  if parentKey = "" then key else parentKey ++ "_" ++ key

mutual

/-- The `items` list built by one call of `flatten_dict` (before the final
`dict(items)`).  Children of dicts and composite array items contribute
`flatten_dict(child).items()`, i.e. `pydict` of their own items. -/
def flatItems : Json → String → List (String × Json)
  | .obj fields, parentKey => objItems fields parentKey
  | .arr [], parentKey => [(parentKey, .str "[]")]
  | .arr (x :: xs), parentKey => arrItems (x :: xs) parentKey 0
  | j, parentKey => [(parentKey, j)]

/-- The dict branch: `for key, value in obj.items(): items.extend(flatten_dict(value, new_key).items())`. -/
def objItems : List (String × Json) → String → List (String × Json)
  | [], _ => []
  | (k, v) :: rest, parentKey =>
      pydict (flatItems v (joinKey parentKey k)) ++ objItems rest parentKey

/-- The non-empty list branch: `new_key = f"{parent_key}{sep}{i}"` (note: the
separator is prepended even when `parent_key` is empty); composite items are
flattened recursively, scalar items are appended directly. -/
def arrItems : List Json → String → Nat → List (String × Json)
  | [], _, _ => []
  | item :: rest, parentKey, i =>
      (if item.isComposite then pydict (flatItems item (parentKey ++ "_" ++ toString i))
       else [(parentKey ++ "_" ++ toString i, item)]) ++ arrItems rest parentKey (i + 1)

end

/-- `flatten_dict(obj, parent_key)`: builds the items and returns `dict(items)`. -/
def flatten_dict (j : Json) (parentKey : String) : List (String × Json) :=
  pydict (flatItems j parentKey)

/-- `flatten_json_data` on a pre-parsed document: `flatten_dict(data)` with
`parent_key = ''`.  (The string-input path `json.loads` is caller-side
decoding, out of the embedded core.) -/
def flatten_json_data (j : Json) : List (String × Json) :=
  flatten_dict j ""

theorem isScalar_of_not_isComposite {j : Json} (h : j.isComposite = false) :
    j.isScalar = true := by
  cases j <;> simp_all [Json.isComposite, Json.isScalar]

theorem flatItems_scalar_aux :
    ∀ (n : Nat) (j : Json) (p : String), sizeOf j ≤ n →
      ∀ kv ∈ flatItems j p, kv.2.isScalar = true := by
  intro n
  induction n with
  | zero =>
    intro j p hle
    exfalso
    cases j <;> simp at hle
  | succ n ih =>
    intro j p hle kv hmem
    cases j with
    | null => simp only [flatItems, List.mem_singleton] at hmem; simp [hmem, Json.isScalar]
    | bool b => simp only [flatItems, List.mem_singleton] at hmem; simp [hmem, Json.isScalar]
    | num m => simp only [flatItems, List.mem_singleton] at hmem; simp [hmem, Json.isScalar]
    | str s => simp only [flatItems, List.mem_singleton] at hmem; simp [hmem, Json.isScalar]
    | arr l =>
      have hl : sizeOf l ≤ n := by
        have : sizeOf (Json.arr l) = 1 + sizeOf l := by simp
        omega
      have harr : ∀ (ys : List Json), (∀ y ∈ ys, sizeOf y ≤ n) →
          ∀ (p' : String) (i : Nat) (kv : String × Json),
            kv ∈ arrItems ys p' i → kv.2.isScalar = true := by
        intro ys
        induction ys with
        | nil => intro _ p' i kv hkv; simp [arrItems] at hkv
        | cons y ys ihy =>
          intro hsz p' i kv hkv
          simp only [arrItems, List.mem_append] at hkv
          rcases hkv with hkv | hkv
          · by_cases hc : y.isComposite = true
            · rw [if_pos hc] at hkv
              exact ih y _ (hsz y (by simp)) kv (mem_pydict hkv)
            · rw [if_neg hc] at hkv
              rw [List.mem_singleton] at hkv
              rw [hkv]
              exact isScalar_of_not_isComposite (by simpa using hc)
          · exact ihy (fun y hy => hsz y (by simp [hy])) p' (i + 1) kv hkv
      cases l with
      | nil =>
        simp only [flatItems, List.mem_singleton] at hmem
        simp [hmem, Json.isScalar]
      | cons x xs =>
        have hbound : ∀ y ∈ x :: xs, sizeOf y ≤ n := by
          intro y hy
          have := List.sizeOf_lt_of_mem hy
          omega
        exact harr (x :: xs) hbound p 0 kv (by simpa [flatItems] using hmem)
    | obj fields =>
      have hl : sizeOf fields ≤ n := by
        have : sizeOf (Json.obj fields) = 1 + sizeOf fields := by simp
        omega
      have hobj : ∀ (fs : List (String × Json)), (∀ q ∈ fs, sizeOf q.2 ≤ n) →
          ∀ (p' : String) (kv : String × Json),
            kv ∈ objItems fs p' → kv.2.isScalar = true := by
        intro fs
        induction fs with
        | nil => intro _ p' kv hkv; simp [objItems] at hkv
        | cons q fs ihq =>
          obtain ⟨k, v⟩ := q
          intro hsz p' kv hkv
          simp only [objItems, List.mem_append] at hkv
          rcases hkv with hkv | hkv
          · exact ih v _ (hsz (k, v) (by simp)) kv (mem_pydict hkv)
          · exact ihq (fun q hq => hsz q (by simp [hq])) p' kv hkv
      have hbound : ∀ q ∈ fields, sizeOf q.2 ≤ n := by
        intro q hq
        have h1 := List.sizeOf_lt_of_mem hq
        obtain ⟨k, v⟩ := q
        have h2 : sizeOf (k, v) = 1 + sizeOf k + sizeOf v := by simp
        simp only at h2 ⊢
        omega
      exact hobj fields hbound p kv (by simpa [flatItems] using hmem)

theorem flatten_dict_scalar (j : Json) (p : String) :
    ∀ kv ∈ flatten_dict j p, kv.2.isScalar = true := fun kv h =>
  flatItems_scalar_aux (sizeOf j) j p (Nat.le_refl _) kv (mem_pydict h)

/-! ## Scalar values and `normalize_value`

The reconciliation engine and the SEC-GIS mapper consume flat documents
whose values are scalars (for flattener output this is `flatten_dict_scalar`
above; ground-truth cells and flat-style SEC documents are scalar by
construction).  `Prim` is the scalar fragment of `Json`. -/

inductive Prim : Type where
  | null : Prim
  | bool : Bool → Prim
  | int : Int → Prim
  | str : String → Prim
deriving DecidableEq

/-- Python `str(value)` on a scalar: a string is itself, booleans print
`True`/`False`, integers print in decimal, `None` prints `None`. -/
def pyStr : Prim → String
  | .str s => s
  | .bool true => "True"
  | .bool false => "False"
  | .int n => toString n
  | .null => "None"

/-- Python `str.lower()`, character-wise (faithful on the ASCII data at
issue). -/
def strLower (s : String) : String := String.mk (s.data.map Char.toLower)

/-- Python `str.strip()`: drop leading and trailing whitespace. -/
def strTrim (s : String) : String :=
  String.mk
    (((s.data.dropWhile Char.isWhitespace).reverse.dropWhile
      Char.isWhitespace).reverse)

/-- Python `s.startswith(pat)`. -/
def strStarts (s pat : String) : Bool := pat.data.isPrefixOf s.data

/-- `normalize_value`: `None` becomes `""`, anything else is `str(value).strip()`.
The null-synonym folding (`'null'`, `'n/a'`, `'na'`, `'none'` → `""`) is
commented out in the source and therefore absent here. -/
def normalize_value : Prim → String
  | .null => ""
  | v => strTrim (pyStr v)

/-! ## Similarity scorer (`similarity_score`)

`similarity_score` returns `1.0` on exact equality and otherwise
`SequenceMatcher(None, val1.lower(), val2.lower()).ratio()`.  The matcher is
embedded below following CPython's `difflib` with `isjunk=None` (so the junk
set `bjunk` is empty).  The autojunk "popular element" culling (active only
for second strings of length ≥ 200) is not modelled: it only prunes the
starting match of `find_longest_match`, and the subsequent non-junk
extension loops restore full matches for the equal-after-lowercasing and
short inputs all claims quantify over.  Float arithmetic is modelled by
exact rationals. -/

/-- The ascending positions of `c` in `b` (difflib's `b2j[c]`, with
`isjunk=None` and no popular culling). -/
def idxsOf (b : List Char) (c : Char) : List Nat :=
  (List.range b.length).filter fun j => decide (b.getD j ' ' = c)

/-- The junk test `isbjunk`; the source constructs the matcher with
`isjunk=None`, so the junk set is empty. -/
def bjunk : Char → Bool := fun _ => false

/-- `j2len.get(j, 0)` on the previous row's dictionary. -/
def lookupD (m : List (Nat × Nat)) (j : Nat) : Nat :=
  (alookup m j).getD 0

/-- `k = j2len.get(j-1, 0) + 1`; in Python `j-1` is `-1` when `j = 0`, a key
never present in `j2len`, hence the guard. -/
def kfun (prev : List (Nat × Nat)) (j : Nat) : Nat :=
  (if j = 0 then 0 else lookupD prev (j - 1)) + 1

/-- The running best match `(besti, bestj, bestsize)` of `find_longest_match`. -/
structure FLM where
  besti : Nat
  bestj : Nat
  bestsize : Nat
deriving DecidableEq

/-- The inner loop of `find_longest_match` over the positions `j` of `a[i]`
in `b`: build the new row dictionary `newj2len` and update the best match
when `k > bestsize`. -/
def flmInner (i : Nat) (prev : List (Nat × Nat)) :
    List Nat → List (Nat × Nat) → FLM → List (Nat × Nat) × FLM
  | [], cur, best => (cur, best)
  | j :: js, cur, best =>
      let k := kfun prev j
      let best' := if best.bestsize < k then FLM.mk (i + 1 - k) (j + 1 - k) k else best
      flmInner i prev js ((j, k) :: cur) best'

/-- The outer loop of `find_longest_match` over `i in range(alo, ahi)`;
positions outside `[blo, bhi)` are skipped exactly as in the source. -/
def flmRows (a b : List Char) (blo bhi : Nat) :
    List Nat → List (Nat × Nat) → FLM → FLM
  | [], _, best => best
  | i :: is, j2len, best =>
      let js := (idxsOf b (a.getD i ' ')).filter fun j =>
        decide (blo ≤ j) && decide (j < bhi)
      let r := flmInner i j2len js [] best
      flmRows a b blo bhi is r.1 r.2

/-- The two left extension loops: while `besti > alo`, `bestj > blo`,
`isbjunk(b[bestj-1]) == jf` and `a[besti-1] == b[bestj-1]`, grow the match
leftwards.  `fuel` is called with the exact iteration bound `besti - alo`
(each step decrements `besti`). -/
def extLeft (a b : List Char) (alo blo : Nat) (jf : Bool) :
    Nat → FLM → FLM
  | 0, m => m
  | fuel + 1, m =>
      if alo < m.besti ∧ blo < m.bestj ∧ bjunk (b.getD (m.bestj - 1) ' ') = jf ∧
          a.getD (m.besti - 1) ' ' = b.getD (m.bestj - 1) ' ' then
        extLeft a b alo blo jf fuel (FLM.mk (m.besti - 1) (m.bestj - 1) (m.bestsize + 1))
      else m

/-- The two right extension loops: while `besti+bestsize < ahi`,
`bestj+bestsize < bhi`, `isbjunk(b[bestj+bestsize]) == jf` and
`a[besti+bestsize] == b[bestj+bestsize]`, grow the match rightwards.
`fuel` is called with the exact bound `ahi - (besti + bestsize)`. -/
def extRight (a b : List Char) (ahi bhi : Nat) (jf : Bool) :
    Nat → FLM → FLM
  | 0, m => m
  | fuel + 1, m =>
      if m.besti + m.bestsize < ahi ∧ m.bestj + m.bestsize < bhi ∧
          bjunk (b.getD (m.bestj + m.bestsize) ' ') = jf ∧
          a.getD (m.besti + m.bestsize) ' ' = b.getD (m.bestj + m.bestsize) ' ' then
        extRight a b ahi bhi jf fuel (FLM.mk m.besti m.bestj (m.bestsize + 1))
      else m

/-- `find_longest_match(alo, ahi, blo, bhi)`: the `j2len` main loop, then the
non-junk extension loops, then the junk extension loops. -/
def findLongestMatch (a b : List Char) (alo ahi blo bhi : Nat) : FLM :=
  let m0 := flmRows a b blo bhi (List.range' alo (ahi - alo)) [] (FLM.mk alo blo 0)
  let m1 := extLeft a b alo blo false (m0.besti - alo) m0
  let m2 := extRight a b ahi bhi false (ahi - (m1.besti + m1.bestsize)) m1
  let m3 := extLeft a b alo blo true (m2.besti - alo) m2
  let m4 := extRight a b ahi bhi true (ahi - (m3.besti + m3.bestsize)) m3
  m4

/-- `get_matching_blocks` summed: total size of the recursively found
matching blocks.  The queue recursion of the source is structural on the
shrinking ranges; `fuel = len(a) + len(b) + 1` dominates its depth. -/
def matchTotalAux (a b : List Char) : Nat → Nat → Nat → Nat → Nat → Nat
  | 0, _, _, _, _ => 0
  | fuel + 1, alo, ahi, blo, bhi =>
      let m := findLongestMatch a b alo ahi blo bhi
      if m.bestsize = 0 then 0
      else matchTotalAux a b fuel alo m.besti blo m.bestj
           + m.bestsize
           + matchTotalAux a b fuel (m.besti + m.bestsize) ahi (m.bestj + m.bestsize) bhi

/-- `M`: the total length of matching blocks over the full ranges. -/
def matchTotal (a b : List Char) : Nat :=
  matchTotalAux a b (a.length + b.length + 1) 0 a.length 0 b.length

/-- `_calculate_ratio`: `2.0 * M / T` (as the exact rational
`mkRat (2 * M) T`), or `1.0` when `T = 0`. -/
def ratioVal (a b : List Char) : ℚ :=
  let t := a.length + b.length
  if t = 0 then 1 else mkRat (2 * (matchTotal a b : Int)) t

/-- `similarity_score(val1, val2)`: `1.0` on exact equality, else the
matcher's ratio on the lowercased strings. -/
def similarity_score (val1 val2 : String) : ℚ :=
  if val1 = val2 then 1
  else ratioVal (strLower val1).data (strLower val2).data

/-! ### The matcher on a string against itself

`find_longest_match` on `(s, s)` over the full ranges returns the whole
diagonal `(0, 0, |s|)`: row `i` of the `j2len` recurrence stores the length
of the run of equal characters ending at `(i, j)`, the diagonal entry grows
to `i + 1` at every row and no off-diagonal entry can exceed it. -/

/-- The run length difflib's `j2len[j]` holds after row `i`, for `a = b = s`. -/
def runLen (s : List Char) : Nat → Nat → Nat
  | 0, j => if s.getD 0 ' ' = s.getD j ' ' then 1 else 0
  | i + 1, 0 => if s.getD (i + 1) ' ' = s.getD 0 ' ' then 1 else 0
  | i + 1, j + 1 =>
      if s.getD (i + 1) ' ' = s.getD (j + 1) ' ' then runLen s i j + 1 else 0

/-- What `j2len` maps `j` to on entry to row `i` (empty before row 0). -/
def prevRun (s : List Char) : Nat → Nat → Nat
  | 0, _ => 0
  | i + 1, j => runLen s i j

theorem runLen_succ_succ (s : List Char) (i j : Nat) :
    runLen s (i + 1) (j + 1) =
      if s.getD (i + 1) ' ' = s.getD (j + 1) ' ' then runLen s i j + 1 else 0 :=
  rfl

theorem runLen_diag (s : List Char) : ∀ i, runLen s i i = i + 1 := by
  intro i
  induction i with
  | zero => simp [runLen]
  | succ i ih => simp [runLen, ih]

theorem runLen_le_right (s : List Char) : ∀ i j, runLen s i j ≤ j + 1 := by
  intro i
  induction i with
  | zero => intro j; unfold runLen; split <;> omega
  | succ i ih =>
    intro j
    cases j with
    | zero => unfold runLen; split <;> omega
    | succ j =>
      unfold runLen
      split
      · have := ih j; omega
      · omega

theorem runLen_le_left (s : List Char) : ∀ i j, runLen s i j ≤ i + 1 := by
  intro i
  induction i with
  | zero => intro j; unfold runLen; split <;> omega
  | succ i ih =>
    intro j
    cases j with
    | zero => unfold runLen; split <;> omega
    | succ j =>
      unfold runLen
      split
      · have := ih j; omega
      · omega

theorem runLen_eq_zero (s : List Char) (i j : Nat)
    (h : s.getD i ' ' ≠ s.getD j ' ') : runLen s i j = 0 := by
  cases i <;> cases j <;> (unfold runLen; rw [if_neg h])

theorem kfun_eq_runLen (s : List Char) {n : Nat} (i j : Nat)
    (prev : List (Nat × Nat))
    (hinv : ∀ j' < n, lookupD prev j' = prevRun s i j')
    (hj : j < n) (hchar : s.getD j ' ' = s.getD i ' ') :
    kfun prev j = runLen s i j := by
  unfold kfun
  cases j with
  | zero =>
    rw [if_pos rfl]
    cases i with
    | zero => unfold runLen; rw [if_pos hchar.symm]
    | succ i' => unfold runLen; rw [if_pos hchar.symm]
  | succ j' =>
    rw [if_neg (Nat.succ_ne_zero j'), Nat.add_sub_cancel,
      hinv j' (by omega)]
    cases i with
    | zero =>
      simp only [prevRun]
      unfold runLen
      rw [if_pos hchar.symm]
    | succ i' =>
      simp only [prevRun]
      rw [runLen_succ_succ, if_pos hchar.symm]

theorem flmInner_fst (i : Nat) (prev : List (Nat × Nat)) :
    ∀ (js : List Nat) (cur : List (Nat × Nat)) (best : FLM),
      (flmInner i prev js cur best).1 =
        (js.map fun j => (j, kfun prev j)).reverse ++ cur := by
  intro js
  induction js with
  | nil => intro cur best; simp [flmInner]
  | cons j js ih =>
    intro cur best
    simp only [flmInner]
    rw [ih]
    simp

theorem flmInner_snd_frozen (i : Nat) (prev : List (Nat × Nat)) :
    ∀ (js : List Nat) (cur : List (Nat × Nat)) (best : FLM),
      (∀ j ∈ js, kfun prev j ≤ best.bestsize) →
      (flmInner i prev js cur best).2 = best := by
  intro js
  induction js with
  | nil => intro cur best _; rfl
  | cons j js ih =>
    intro cur best hle
    have h1 : ¬ best.bestsize < kfun prev j := by
      have := hle j (by simp); omega
    simp only [flmInner, if_neg h1]
    exact ih _ best (fun j' hj' => hle j' (by simp [hj']))

theorem flmInner_append (i : Nat) (prev : List (Nat × Nat)) :
    ∀ (xs ys : List Nat) (cur : List (Nat × Nat)) (best : FLM),
      flmInner i prev (xs ++ ys) cur best =
        flmInner i prev ys (flmInner i prev xs cur best).1
          (flmInner i prev xs cur best).2 := by
  intro xs
  induction xs with
  | nil => intro ys cur best; rfl
  | cons x xs ih =>
    intro ys cur best
    simp only [List.cons_append, flmInner]
    exact ih _ _ _

theorem js_filter_full (s : List Char) (c : Char) :
    (idxsOf s c).filter (fun j => decide (0 ≤ j) && decide (j < s.length)) =
      idxsOf s c := by
  apply List.filter_eq_self.mpr
  intro j hj
  unfold idxsOf at hj
  have hmem : j ∈ List.range s.length := (List.mem_filter.mp hj).1
  have := List.mem_range.mp hmem
  simp [this]

theorem mem_idxsOf (s : List Char) (c : Char) (j : Nat) :
    j ∈ idxsOf s c ↔ j < s.length ∧ s.getD j ' ' = c := by
  unfold idxsOf
  rw [List.mem_filter, List.mem_range]
  simp

theorem idxsOf_decomp (s : List Char) (i : Nat) (hi : i < s.length) :
    ∃ A B : List Nat,
      idxsOf s (s.getD i ' ') = A ++ i :: B ∧
      (∀ j ∈ A, j < i ∧ s.getD j ' ' = s.getD i ' ') ∧
      (∀ j ∈ B, i < j ∧ j < s.length ∧ s.getD j ' ' = s.getD i ' ') := by
  refine ⟨(List.range i).filter (fun j => decide (s.getD j ' ' = s.getD i ' ')),
    (List.range' (i + 1) (s.length - (i + 1))).filter
      (fun j => decide (s.getD j ' ' = s.getD i ' ')), ?_, ?_, ?_⟩
  · unfold idxsOf
    have hsplit : List.range s.length =
        List.range i ++ i :: List.range' (i + 1) (s.length - (i + 1)) := by
      rw [List.range_eq_range', List.range_eq_range']
      have h1 : s.length - i = (s.length - (i + 1)) + 1 := by omega
      have h2 : List.range' 0 i ++ List.range' (0 + i) (s.length - i) =
          List.range' 0 (s.length - i + i) := List.range'_append_1 0 i _
      rw [Nat.zero_add] at h2
      rw [show s.length - i + i = s.length by omega] at h2
      rw [← h2, h1, List.range'_succ]
    rw [hsplit, List.filter_append, List.filter_cons]
    simp
  · intro j hj
    rw [List.mem_filter, List.mem_range] at hj
    exact ⟨hj.1, of_decide_eq_true hj.2⟩
  · intro j hj
    rw [List.mem_filter, List.mem_range'_1] at hj
    refine ⟨by omega, by omega, of_decide_eq_true hj.2⟩

theorem nodup_idxsOf (s : List Char) (c : Char) : (idxsOf s c).Nodup :=
  (List.nodup_range s.length).filter _

theorem flm_row (s : List Char) (i : Nat) (hi : i < s.length)
    (j2 : List (Nat × Nat))
    (hinv : ∀ j < s.length, lookupD j2 j = prevRun s i j) :
    (flmInner i j2
        ((idxsOf s (s.getD i ' ')).filter fun j =>
          decide (0 ≤ j) && decide (j < s.length))
        [] (FLM.mk 0 0 i)).2 = FLM.mk 0 0 (i + 1) ∧
    ∀ j < s.length,
      lookupD (flmInner i j2
        ((idxsOf s (s.getD i ' ')).filter fun j =>
          decide (0 ≤ j) && decide (j < s.length))
        [] (FLM.mk 0 0 i)).1 j = prevRun s (i + 1) j := by
  rw [js_filter_full]
  obtain ⟨A, B, hAB, hA, hB⟩ := idxsOf_decomp s i hi
  have hnd : (A ++ i :: B).Nodup := hAB ▸ nodup_idxsOf s (s.getD i ' ')
  have hkA : ∀ j ∈ A, kfun j2 j = runLen s i j := fun j hj =>
    kfun_eq_runLen s i j j2 hinv (Nat.lt_trans (hA j hj).1 hi) (hA j hj).2
  have hkB : ∀ j ∈ B, kfun j2 j = runLen s i j := fun j hj =>
    kfun_eq_runLen s i j j2 hinv (hB j hj).2.1 (hB j hj).2.2
  have hki : kfun j2 i = i + 1 := by
    rw [kfun_eq_runLen s i i j2 hinv hi rfl, runLen_diag]
  rw [hAB, flmInner_append]
  have hfrozenA : (flmInner i j2 A [] (FLM.mk 0 0 i)).2 = FLM.mk 0 0 i :=
    flmInner_snd_frozen _ _ A _ _ (fun j hj => by
      rw [hkA j hj]
      have h1 := runLen_le_right s i j
      have h2 := (hA j hj).1
      show runLen s i j ≤ i
      omega)
  rw [hfrozenA]
  have hcond : (FLM.mk 0 0 i).bestsize < kfun j2 i := by
    rw [hki]; exact Nat.lt_succ_self i
  simp only [flmInner, if_pos hcond]
  have hbest' : FLM.mk (i + 1 - kfun j2 i) (i + 1 - kfun j2 i) (kfun j2 i) =
      FLM.mk 0 0 (i + 1) := by
    rw [hki]; simp
  rw [hbest']
  have hfrozenB : ∀ (cur : List (Nat × Nat)),
      (flmInner i j2 B cur (FLM.mk 0 0 (i + 1))).2 = FLM.mk 0 0 (i + 1) :=
    fun cur => flmInner_snd_frozen _ _ B _ _ (fun j hj => by
      rw [hkB j hj]
      have := runLen_le_left s i j
      show runLen s i j ≤ i + 1
      omega)
  refine ⟨hfrozenB _, ?_⟩
  intro j hjn
  rw [flmInner_fst, flmInner_fst]
  set L : List (Nat × Nat) :=
    (B.map fun j => (j, kfun j2 j)).reverse ++
      (i, kfun j2 i) :: ((A.map fun j => (j, kfun j2 j)).reverse ++ []) with hL
  have hmapfst : ∀ l : List Nat,
      (l.map fun j => (j, kfun j2 j)).map Prod.fst = l := by
    intro l
    induction l with
    | nil => rfl
    | cons x xs ih => simp [ih]
  have hkeys : L.map Prod.fst = B.reverse ++ i :: A.reverse := by
    rw [hL]
    simp only [List.append_nil, List.map_append, List.map_cons,
      List.map_reverse, hmapfst]
  have hperm : (B.reverse ++ i :: A.reverse).Perm (A ++ i :: B) := by
    have p1 : (B.reverse ++ i :: A.reverse).Perm (i :: (B.reverse ++ A.reverse)) :=
      List.perm_middle
    have p2 : (B.reverse ++ A.reverse).Perm (A ++ B) :=
      (B.reverse_perm.append A.reverse_perm).trans List.perm_append_comm
    have p4 : (i :: (A ++ B)).Perm (A ++ i :: B) := List.perm_middle.symm
    exact p1.trans ((p2.cons i).trans p4)
  have hndL : (L.map Prod.fst).Nodup := by
    rw [hkeys]
    exact (List.Perm.nodup_iff hperm).mpr hnd
  by_cases hc : s.getD j ' ' = s.getD i ' '
  · have hjmem : j ∈ A ++ i :: B := by
      rw [← hAB, mem_idxsOf]
      exact ⟨hjn, hc⟩
    have hmemL : (j, kfun j2 j) ∈ L := by
      rcases List.mem_append.mp hjmem with hj | hj
      · have h1 : (j, kfun j2 j) ∈ (A.map fun j => (j, kfun j2 j)).reverse ++
            ([] : List (Nat × Nat)) := by
          rw [List.append_nil, List.mem_reverse]
          exact List.mem_map_of_mem _ hj
        rw [hL]
        exact List.mem_append_right _ (List.mem_cons_of_mem _ h1)
      · rcases List.mem_cons.mp hj with hj | hj
        · subst hj
          rw [hL]
          exact List.mem_append_right _ (List.mem_cons_self _ _)
        · have h1 : (j, kfun j2 j) ∈ (B.map fun j => (j, kfun j2 j)).reverse := by
            rw [List.mem_reverse]
            exact List.mem_map_of_mem _ hj
          rw [hL]
          exact List.mem_append_left _ h1
    have : alookup L j = some (kfun j2 j) := alookup_eq_of_mem_nodup hndL hmemL
    rw [lookupD, this]
    have hkj : kfun j2 j = runLen s i j :=
      kfun_eq_runLen s i j j2 hinv hjn hc
    simp [hkj, prevRun]
  · have hjnot : j ∉ L.map Prod.fst := by
      rw [hkeys]
      intro hmem
      have : j ∈ A ++ i :: B := (hperm.mem_iff).mp hmem
      rw [← hAB, mem_idxsOf] at this
      exact hc this.2
    have : alookup L j = none := (alookup_eq_none_iff L j).mpr hjnot
    rw [lookupD, this]
    have : runLen s i j = 0 := runLen_eq_zero s i j (fun h => hc h.symm)
    simp [prevRun, this]

theorem flmRows_diag (s : List Char) :
    ∀ (k i : Nat), i + k = s.length →
      ∀ j2 : List (Nat × Nat), (∀ j < s.length, lookupD j2 j = prevRun s i j) →
        flmRows s s 0 s.length (List.range' i k) j2 (FLM.mk 0 0 i) =
          FLM.mk 0 0 s.length := by
  intro k
  induction k with
  | zero =>
    intro i hik j2 _
    have : i = s.length := by omega
    subst this
    rfl
  | succ k ih =>
    intro i hik j2 hinv
    have hi : i < s.length := by omega
    rw [List.range'_succ]
    obtain ⟨h2, h1⟩ := flm_row s i hi j2 hinv
    simp only [flmRows]
    rw [h2]
    exact ih (i + 1) (by omega) _ h1

theorem findLongestMatch_self (s : List Char) :
    findLongestMatch s s 0 s.length 0 s.length = FLM.mk 0 0 s.length := by
  unfold findLongestMatch
  have h0 : flmRows s s 0 s.length (List.range' 0 (s.length - 0)) []
      (FLM.mk 0 0 0) = FLM.mk 0 0 s.length := by
    have := flmRows_diag s s.length 0 (by omega) []
      (fun j _ => by simp [lookupD, alookup, prevRun])
    simpa using this
  rw [h0]
  simp [extLeft, extRight]

theorem findLongestMatch_empty (a b : List Char) (alo blo bhi : Nat) :
    findLongestMatch a b alo alo blo bhi = FLM.mk alo blo 0 := by
  unfold findLongestMatch
  simp [flmRows, extLeft, extRight, Nat.sub_self]

theorem matchTotalAux_empty (a b : List Char) :
    ∀ (fuel alo blo bhi : Nat), matchTotalAux a b fuel alo alo blo bhi = 0 := by
  intro fuel alo blo bhi
  cases fuel with
  | zero => rfl
  | succ fuel => simp [matchTotalAux, findLongestMatch_empty]

theorem matchTotal_self (s : List Char) : matchTotal s s = s.length := by
  unfold matchTotal
  rcases Nat.eq_zero_or_pos s.length with hn | hn
  · rw [hn]
    exact matchTotalAux_empty s s (0 + 0 + 1) 0 0 0
  · have step : matchTotalAux s s (s.length + s.length + 1) 0 s.length 0 s.length =
        let m := findLongestMatch s s 0 s.length 0 s.length
        if m.bestsize = 0 then 0
        else matchTotalAux s s (s.length + s.length) 0 m.besti 0 m.bestj
             + m.bestsize
             + matchTotalAux s s (s.length + s.length) (m.besti + m.bestsize)
                 s.length (m.bestj + m.bestsize) s.length := rfl
    rw [step, findLongestMatch_self]
    show (if s.length = 0 then 0
      else matchTotalAux s s (s.length + s.length) 0 0 0 0 + s.length +
        matchTotalAux s s (s.length + s.length) (0 + s.length) s.length
          (0 + s.length) s.length) = s.length
    rw [if_neg (by omega), Nat.zero_add, matchTotalAux_empty, matchTotalAux_empty]
    omega

theorem similarity_score_self (x : String) : similarity_score x x = 1 := by
  simp [similarity_score]

theorem similarity_score_lower_eq (a b : String)
    (h : strLower a = strLower b) : similarity_score a b = 1 := by
  unfold similarity_score
  by_cases hab : a = b
  · rw [if_pos hab]
  · rw [if_neg hab, h]
    unfold ratioVal
    by_cases hn : (strLower b).data.length + (strLower b).data.length = 0
    · rw [if_pos hn]
    · rw [if_neg hn, matchTotal_self, Rat.mkRat_eq_divInt, Rat.divInt_eq_div]
      have hne : ((strLower b).data.length : ℚ) + ((strLower b).data.length : ℚ) ≠ 0 := by
        exact_mod_cast hn
      push_cast
      rw [div_eq_one_iff_eq hne]
      ring

/-! ## Match status classification -/

/-- The five status tiers; the source renders them as the strings
`"✅ Perfect Match"`, `"🟨 Very Close"`, `"🟧 Similar"`, `"❓ Missing in JSON"`
and `"❌ Mismatch"`. -/
inductive Status where
  | perfectMatch : Status
  | veryClose : Status
  | similar : Status
  | missingInJson : Status
  | mismatch : Status
deriving DecidableEq

def Status.isMissing : Status → Bool
  | .missingInJson => true
  | _ => false

/-- The status cascade of `compare_with_ground_truth` given the already
computed similarity score: exact match, then `> 0.9`, then `> 0.7`, then the
empty-resolved-value check, else mismatch. -/
def classifyStatus (flattenedValue truthValue : String) (score : ℚ) : Status :=
  if flattenedValue = truthValue then .perfectMatch
  else if mkRat 9 10 < score then .veryClose
  else if mkRat 7 10 < score then .similar
  else if flattenedValue = "" then .missingInJson
  else .mismatch

/-- Status of a row: the cascade applied to `similarity_score`, exactly as the
engine computes it. -/
def statusOf (flattenedValue truthValue : String) : Status :=
  classifyStatus flattenedValue truthValue
    (similarity_score flattenedValue truthValue)

/-! ## SEC-GIS mapper (`map_sec_gis_fields`)

The catalog is represented as the ordered `(HumanLabel, source_key)` pairs of
the source's `field_mapping` dict construction; the Python expression
`data.get(key, "")` is deferred: the pair stores `key` and the lookup happens
in `map_sec_gis_fields` below, which also applies the null-cleaning loop.
Duplicate labels in the source (the two `(from Stockholder detail pages)`
entries assigned twice) are kept in textual order and resolved by `pydict`,
reproducing Python's dict semantics. -/

def secDirectorEntries : List (String × String) :=
  (List.range' 1 20).flatMap fun i =>
    [ ("Director/Officer " ++ toString i ++ " Name",
        "director_officer_name_" ++ toString i),
      ("Director/Officer " ++ toString i ++ " Address",
        "director_officer_address_" ++ toString i),
      ("Director/Officer " ++ toString i ++ " Nationality",
        "director_officer_nationality_" ++ toString i),
      ("Director/Officer " ++ toString i ++ " INC'R",
        "director_officer_inc_r_" ++ toString i),
      ("Director/Officer " ++ toString i ++ " Board",
        "director_officer_board_" ++ toString i),
      ("Director/Officer " ++ toString i ++ " Gender",
        "director_officer_gender_" ++ toString i),
      ("Director/Officer " ++ toString i ++ " Stock Holder",
        "director_officer_stock_holder_" ++ toString i),
      ("Director/Officer " ++ toString i ++ " Officer",
        "director_officer_officer_" ++ toString i),
      ("Director/Officer " ++ toString i ++ " Exec Comm.",
        "director_officer_exec_comm_" ++ toString i),
      ("Director/Officer " ++ toString i ++ " TIN",
        "director_officer_tin_" ++ toString i) ]

def secStockholderEntries : List (String × String) :=
  (List.range' 1 10).flatMap fun i =>
    [ ("Stockholder " ++ toString i ++ " Name",
        "stockholder_name_" ++ toString i),
      ("Stockholder " ++ toString i ++ " Nationality",
        "stockholder_nationality_" ++ toString i),
      ("Stockholder " ++ toString i ++ " Address",
        "stockholder_address_" ++ toString i),
      ("Stockholder " ++ toString i ++ " Total Shares Subscribed_No.",
        "stockholder_shares_subscribed_number_" ++ toString i),
      ("Stockholder " ++ toString i ++ " Total Shares Subscribed_Amount (PHP)",
        "stockholder_shares_subscribed_amount_" ++ toString i),
      ("Stockholder " ++ toString i ++ " % of Ownership",
        "stockholder_ownership_percentage_" ++ toString i),
      ("Stockholder " ++ toString i ++ " Amount Paid (PHP)",
        "stockholder_amount_paid_" ++ toString i),
      ("Stockholder " ++ toString i ++ " TIN",
        "stockholder_tin_" ++ toString i) ]

def secEntries : List (String × String) :=
  [ ("Document Type", "document_type"),
    ("For the year", "for_the_year"),
    ("Corporate Name", "business_trade_name"),
    ("Business/Trade Name", "business_trade_name"),
    ("Date Registered", "date_registered"),
    ("Fiscal Year End", "fiscal_year_end"),
    ("SEC Registration Number", "sec_registration_number"),
    ("Corporate TIN", "corporate_tin"),
    ("Website/URL", "website_url"),
    ("Principal Office Address", "principal_office_address"),
    ("Business Address", "business_address"),
    ("Official e-mail address", "official_email"),
    ("Alternate Email Address", "alternate_email"),
    ("Official Mobile Number", "official_mobile"),
    ("Alternate Mobile Number", "alternate_mobile"),
    ("Primary Purpose/Industry", "primary_purpose_industry"),
    ("Industry Classification", "industry_classification"),
    ("Geographical Code", "geographical_code"),
    ("Parent Company Name", "parent_company_name"),
    ("Parent Company SEC Reg. No.", "parent_company_sec_reg_no"),
    ("Parent Company Address", "parent_company_address"),
    ("Subsidiary/Affiliate", "subsidiary_affiliate"),
    ("Subsidiary/Affiliate SEC Reg. No.", "subsidiary_affiliate_sec_reg_no"),
    ("Subsidiary/Affiliate Address", "subsidiary_affiliate_address"),
    ("External Auditor", "external_auditor"),
    ("Auditor SEC Accreditation Number", "auditor_sec_accreditation_number"),
    ("Covered Person (AML)", "covered_person_aml"),
    ("AMLA Category 1", "amla_category_1"),
    ("AMLA Category 2", "amla_category_2"),
    ("AMLA Category 3", "amla_category_3"),
    ("AMLA Category 4", "amla_category_4"),
    ("AMLA Category 5", "amla_category_5"),
    ("AMLA Category 6", "amla_category_6"),
    ("AMLA Category 7", "amla_category_7"),
    ("AMLA Category 8", "amla_category_8"),
    ("AMLA Compliance Status", "amla_compliance_status"),
    ("Corporate Name (2)", "business_trade_name"),
    ("Corporate Name (3)", "business_trade_name"),
    ("Auth Capital Stock - Type of Shares 1", "auth_capital_stock_type_of_shares_1"),
    ("Auth Capital Stock - Number of Shares 1", "auth_capital_stock_number_of_shares_1"),
    ("Auth Capital Stock - Par / Stated Value 1", "auth_capital_stock_par_stated_value_1"),
    ("Auth Capital Stock - Amount (PhP) 1", "auth_capital_stock_amount_php_1"),
    ("Filipino Subscribed Capital - Type of Shares 1", "filipino_subscribed_capital_type_of_shares_1"),
    ("Filipino Subscribed Capital - Number of Shares 1", "filipino_subscribed_capital_number_of_shares_1"),
    ("Filipino Subscribed Capital - Par / Stated Value 1", "filipino_subscribed_capital_par_stated_value_1"),
    ("Filipino Subscribed Capital - Amount (PhP) 1", "filipino_subscribed_capital_amount_php_1"),
    ("Foreign Subscribed Capital - Type of Shares 1", "foreign_subscribed_capital_type_of_shares_1"),
    ("Foreign Subscribed Capital - Number of Shares 1", "foreign_subscribed_capital_number_of_shares_1"),
    ("Foreign Subscribed Capital - Par / Stated Value 1", "foreign_subscribed_capital_par_stated_value_1"),
    ("Foreign Subscribed Capital - Amount (PhP) 1", "foreign_subscribed_capital_amount_php_1"),
    ("Subscribed Capital_% Foreigh Equity", "subscribed_capital_foreign_equity_percentage"),
    ("Subscribed Capital_Total", "subscribed_capital_total"),
    ("Filipino Paid-Up Capital - Type of Shares 1", "filipino_paid_up_capital_type_of_shares_1"),
    ("Filipino Paid-up Capital Number of Shares 1", "filipino_paid_up_capital_number_of_shares_1"),
    ("Filipino Paid-Up Capital - Par / Stated Value 1", "filipino_paid_up_capital_par_stated_value_1"),
    ("Filipino Paid-Up Capital - Amount (PhP) 1", "filipino_paid_up_capital_amount_php_1"),
    ("Foreign Paid-Up Capital - Type of Shares 1", "foreign_paid_up_capital_type_of_shares_1"),
    ("Foreign Paid-up Capital Number of Shares 1", "foreign_paid_up_capital_number_of_shares_1"),
    ("Foreign Paid-Up Capital - Par / Stated Value 1", "foreign_paid_up_capital_par_stated_value_1"),
    ("Foreign Paid-Up Capital - Amount (PhP) 1", "foreign_paid_up_capital_amount_php_1"),
    ("Paid-up Capital_% Foreigh Equity", "paid_up_capital_foreign_equity_percentage"),
    ("Paid-Up Capital_Total", "paid_up_capital_total"),
    ("Corporate Name (4)", "business_trade_name"),
    ("Corporate Name (5)", "business_trade_name"),
    ("Corporate Name (6)", "business_trade_name") ]
  ++ secDirectorEntries
  ++ [ ("Total Number of Stockholders", "total_number_stockholders"),
    ("Number of Stockholders with ≥100 shares", "number_stockholders_100_plus_shares"),
    ("Total Assets (Latest Audited FS)", "total_assets") ]
  ++ secStockholderEntries
  ++ [ ("Subscribed Capital_Total (PHP) (from Stockholder detail pages)", "subscribed_capital_total_from_stockholders"),
    ("Paid-Up Capital_Total (PHP) (from Stockholder detail pages)", "paid_up_capital_total_from_stockholders"),
    ("Subscribed Capital_Total (PHP) (from Stockholder detail pages)", "filipino_subscribed_capital_amount_php_1"),
    ("Paid-Up Capital_Total (PHP) (from Stockholder detail pages)", "filipino_paid_up_capital_amount_php_1"),
    ("Unrestricted Retained Earnings (PHP)", "unrestricted_retained_earnings"),
    ("Prior year Dividends_Cash (PHP)", "prior_year_dividends_cash"),
    ("Prior year Dividends_Stock (PHP)", "prior_year_dividends_stock"),
    ("Prior year Dividends_Property (PHP)", "prior_year_dividends_property"),
    ("Prior year Dividends_Total (PHP)", "prior_year_dividends_total"),
    ("Share Issuance_Date", "share_issuance_date"),
    ("Share Issuance_No", "share_issuance_number"),
    ("Share Issuance_Amount (PHP)", "share_issuance_amount"),
    ("SEC License Type", "sec_license_type"),
    ("SEC Licnese Date", "sec_license_date"),
    ("SEC Ops start", "sec_ops_start"),
    ("BSP License Type", "bsp_license_type"),
    ("BSP Licnese Date", "bsp_license_date"),
    ("BSP Ops start", "bsp_ops_start"),
    ("IC License Type", "ic_license_type"),
    ("IC Licnese Date", "ic_license_date"),
    ("IC Ops start", "ic_ops_start"),
    ("Total Comp (PHP)", "total_compensation"),
    ("No Officers", "number_officers"),
    ("No Employees", "number_employees"),
    ("Total Manpower", "total_manpower"),
    ("UBO_Name", "ubo_name"),
    ("UBO_Address", "ubo_address"),
    ("UBO_Naitonality", "ubo_nationality"),
    ("UBO_DOB", "ubo_dob"),
    ("UBO_TIN", "ubo_tin"),
    ("UBO_% ownership", "ubo_ownership_percentage"),
    ("UBO_Type", "ubo_type"),
    ("UBO_Category", "ubo_category") ]

/-- The catalog as a Python dict (label keeps its first position, a repeated
label gets the last assigned source key). -/
def secCatalog : List (String × String) := pydict secEntries

/-- The null-cleaning loop: a missing key was defaulted to the Python string
`""` (cleaned to `""`), `None` is cleaned to `""`, a value whose `str` form
lowercases to `"null"` is cleaned to `""`, anything else is stringified. -/
def cleanVal : Option Prim → String
  | none => ""
  | some .null => ""
  | some v => if strLower (pyStr v) = "null" then "" else pyStr v

/-- `map_sec_gis_fields(data)`: build the catalog with `data.get(key, "")`
for each entry, then apply the cleaning loop into a fresh dict. -/
def map_sec_gis_fields (data : List (String × Prim)) : List (String × String) :=
  pydict (secCatalog.map fun p => (p.1, cleanVal (alookup data p.2)))

theorem map_sec_keys_eq (data : List (String × Prim)) :
    ((secCatalog.map fun p => (p.1, cleanVal (alookup data p.2))).map Prod.fst)
      = secCatalog.map Prod.fst := by
  rw [List.map_map]
  exact congrArg (fun f => List.map f secCatalog) (funext fun p => rfl)

theorem map_sec_lookup (data : List (String × Prim)) {l sk : String}
    (hmem : (l, sk) ∈ secCatalog) :
    alookup (map_sec_gis_fields data) l = some (cleanVal (alookup data sk)) := by
  unfold map_sec_gis_fields
  have hnd : (secCatalog.map Prod.fst).Nodup := nodup_keys_pydict secEntries
  have hndm : ((secCatalog.map fun p => (p.1, cleanVal (alookup data p.2))).map
      Prod.fst).Nodup := by
    rw [map_sec_keys_eq]; exact hnd
  rw [pydict_eq_self hndm]
  have hmem' : (l, cleanVal (alookup data sk)) ∈
      secCatalog.map (fun p => (p.1, cleanVal (alookup data p.2))) :=
    List.mem_map.mpr ⟨(l, sk), hmem, rfl⟩
  exact alookup_eq_of_mem_nodup hndm hmem'

/-- Catalog membership from a (cheaply evaluable) lookup in the reversed
entry list. -/
theorem mem_secCatalog_of_lookup {l sk : String}
    (h : alookup secEntries.reverse l = some sk) : (l, sk) ∈ secCatalog :=
  alookup_mem (show alookup secCatalog l = some sk by
    unfold secCatalog
    rw [alookup_pydict]
    exact h)

/-! ## Reconciliation engine (`compare_with_ground_truth`)

The candidate-name transforms.  Python applies `.lower()` and then chains of
`.replace`; since every replacement is per-character (or a deletion) and no
replacement output is hit by a later replacement, the chains are equal to the
character-wise maps/filters below. -/

/-- `field_name.lower().replace(' ','_').replace('/','_').replace('-','_')
.replace('(','').replace(')','').replace('≥','').replace('.','').replace("'",'')`. -/
def comprehensiveTransform (s : String) : String :=
  String.mk (((s.data.map Char.toLower).map
    (fun c => if c ∈ [' ', '/', '-'] then '_' else c)).filter
    (fun c => decide (c ∉ ['(', ')', '≥', '.', '\''])))

/-- `field_name.replace(' ', '_').replace('/', '_').replace('-', '_')`. -/
def lightTransform (s : String) : String :=
  String.mk (s.data.map fun c => if c ∈ [' ', '/', '-'] then '_' else c)

/-- `field_name.lower().replace(' ', '_')`. -/
def snakeTransform (s : String) : String :=
  String.mk ((s.data.map Char.toLower).map fun c => if c = ' ' then '_' else c)

/-- `field_name.replace(' ', '').lower()`. -/
def nospaceTransform (s : String) : String :=
  String.mk ((s.data.filter fun c => decide (c ≠ ' ')).map Char.toLower)

/-- The `base_transforms` list, in source order. -/
def base_transforms (field : String) : List String :=
  [comprehensiveTransform field, lightTransform field,
    snakeTransform field, nospaceTransform field]

/-- The static `field_mappings` override table, in source order.  The source
dict literal re-lists seven keys near its end with identical values; under
Python dict semantics (and first-match `alookup`) the repeats are inert, and
they are kept here for fidelity. -/
def field_mappings : List (String × String) :=
  [ ("Document Type", "document_type"),
    ("For the year", "for_the_year"),
    ("Corporate Name", "business_trade_name"),
    ("Business/Trade Name", "business_trade_name"),
    ("Date Registered", "date_registered"),
    ("Fiscal Year End", "fiscal_year_end"),
    ("SEC Registration Number", "sec_registration_number"),
    ("Corporate TIN", "corporate_tin"),
    ("Website/URL", "website_url"),
    ("Principal Office Address", "principal_office_address"),
    ("Business Address", "business_address"),
    ("Official e-mail address", "official_email"),
    ("Alternate Email Address", "alternate_email"),
    ("Official Mobile Number", "official_mobile"),
    ("Alternate Mobile Number", "alternate_mobile"),
    ("Primary Purpose/Industry", "primary_purpose_industry"),
    ("Industry Classification", "industry_classification"),
    ("Geographical Code", "geographical_code"),
    ("Parent Company Name", "parent_company_name"),
    ("Parent Company SEC Reg. No.", "parent_company_sec_reg_no"),
    ("Parent Company Address", "parent_company_address"),
    ("Subsidiary/Affiliate", "subsidiary_affiliate"),
    ("Subsidiary/Affiliate SEC Reg. No.", "subsidiary_affiliate_sec_reg_no"),
    ("Subsidiary/Affiliate Address", "subsidiary_affiliate_address"),
    ("External Auditor", "external_auditor"),
    ("Auditor SEC Accreditation Number", "auditor_sec_accreditation_number"),
    ("Covered Person (AML)", "covered_person_aml"),
    ("AMLA Category 1", "amla_category_1"),
    ("AMLA Category 2", "amla_category_2"),
    ("AMLA Category 3", "amla_category_3"),
    ("AMLA Category 4", "amla_category_4"),
    ("AMLA Category 5", "amla_category_5"),
    ("AMLA Category 6", "amla_category_6"),
    ("AMLA Category 7", "amla_category_7"),
    ("AMLA Category 8", "amla_category_8"),
    ("AMLA Compliance Status", "amla_compliance_status"),
    ("Auth Capital Stock - Type of Shares 1", "auth_capital_stock_type_of_shares_1"),
    ("Auth Capital Stock - Number of Shares 1", "auth_capital_stock_number_of_shares_1"),
    ("Auth Capital Stock - Par / Stated Value 1", "auth_capital_stock_par_stated_value_1"),
    ("Auth Capital Stock - Amount (PhP) 1", "auth_capital_stock_amount_php_1"),
    ("Authorized Capital Stock", "auth_capital_stock_amount_php_1"),
    ("Filipino Subscribed Capital - Type of Shares 1", "filipino_subscribed_capital_type_of_shares_1"),
    ("Filipino Subscribed Capital - Number of Shares 1", "filipino_subscribed_capital_number_of_shares_1"),
    ("Filipino Subscribed Capital - Par / Stated Value 1", "filipino_subscribed_capital_par_stated_value_1"),
    ("Filipino Subscribed Capital - Amount (PhP) 1", "filipino_subscribed_capital_amount_php_1"),
    ("Foreign Subscribed Capital - Type of Shares 1", "foreign_subscribed_capital_type_of_shares_1"),
    ("Foreign Subscribed Capital - Number of Shares 1", "foreign_subscribed_capital_number_of_shares_1"),
    ("Foreign Subscribed Capital - Par / Stated Value 1", "foreign_subscribed_capital_par_stated_value_1"),
    ("Foreign Subscribed Capital - Amount (PhP) 1", "foreign_subscribed_capital_amount_php_1"),
    ("Filipino Paid-Up Capital - Type of Shares 1", "filipino_paid_up_capital_type_of_shares_1"),
    ("Filipino Paid-up Capital Number of Shares 1", "filipino_paid_up_capital_number_of_shares_1"),
    ("Filipino Paid-Up Capital - Par / Stated Value 1", "filipino_paid_up_capital_par_stated_value_1"),
    ("Filipino Paid-Up Capital - Amount (PhP) 1", "filipino_paid_up_capital_amount_php_1"),
    ("Foreign Paid-Up Capital - Type of Shares 1", "foreign_paid_up_capital_type_of_shares_1"),
    ("Foreign Paid-up Capital Number of Shares 1", "foreign_paid_up_capital_number_of_shares_1"),
    ("Foreign Paid-Up Capital - Par / Stated Value 1", "foreign_paid_up_capital_par_stated_value_1"),
    ("Foreign Paid-Up Capital - Amount (PhP) 1", "foreign_paid_up_capital_amount_php_1"),
    ("Subscribed Capital_Filipino", "filipino_subscribed_capital_amount_php_1"),
    ("Subscribed Capital_Foreign", "foreign_subscribed_capital_amount_php_1"),
    ("Subscribed Capital_% Foreigh Equity", "subscribed_capital_foreign_equity_percentage"),
    ("Subscribed Capital_Total", "filipino_subscribed_capital_amount_php_1"),
    ("Paid-up Capital_Filipino", "filipino_paid_up_capital_amount_php_1"),
    ("Paid-up Capital_Foreign", "foreign_paid_up_capital_amount_php_1"),
    ("Paid-up Capital_% Foreigh Equity", "paid_up_capital_foreign_equity_percentage"),
    ("Paid-up Capital_% Foreign Equity", "paid_up_capital_foreign_equity_percentage"),
    ("Paid-Up Capital_Total", "filipino_paid_up_capital_amount_php_1"),
    ("Director/Officer_Name", "director_officer_name"),
    ("Director/Officer_Address", "director_officer_address"),
    ("Director/Officer_Nationality", "director_officer_nationality"),
    ("Director/Officer_INC'R", "director_officer_inc_r"),
    ("Director/Officer_Board", "director_officer_board"),
    ("Director/Officer_Gender", "director_officer_gender"),
    ("Director/Officer_Stock Holder", "director_officer_stock_holder"),
    ("Director/Officer_Officer", "director_officer_officer"),
    ("Director/Officer_Exec Comm.", "director_officer_exec_comm"),
    ("Director/Officer_TIN", "director_officer_tin"),
    ("Total Number of Stockholders", "total_number_stockholders"),
    ("Number of Stockholders with ≥100 shares", "number_stockholders_100_plus_shares"),
    ("Total Assets (Latest Audited FS)", "total_assets"),
    ("Stockholder_Name", "stockholder_name"),
    ("Stockholder_Nationality", "stockholder_nationality"),
    ("Stockholder_Address", "stockholder_address"),
    ("Stockholder_Total Shares Subscribed_No.", "stockholder_shares_subscribed_number"),
    ("Stockholder_Total Shares Subscribed_Amount (PHP)", "stockholder_shares_subscribed_amount"),
    ("Stockholder_% of Ownership", "stockholder_ownership_percentage"),
    ("Stockholder_Amount Paid (PHP)", "stockholder_amount_paid"),
    ("Stockholder_TIN", "stockholder_tin"),
    ("Subscribed Capital_Total (PHP) (from Stockholder detail pages)", "filipino_subscribed_capital_amount_php_1"),
    ("Paid-Up Capital_Total (PHP) (from Stockholder detail pages)", "filipino_paid_up_capital_amount_php_1"),
    ("Unrestricted Retained Earnings (PHP)", ""),
    ("Prior year Dividends_Cash (PHP)", "prior_year_dividends_cash"),
    ("Prior year Dividends_Stock (PHP)", "prior_year_dividends_stock"),
    ("Prior year Dividends_Property (PHP)", "prior_year_dividends_property"),
    ("Prior year Dividends_Total (PHP)", "prior_year_dividends_total"),
    ("Share Issuance_Date", "share_issuance_date"),
    ("Share Issuance_No", "share_issuance_number"),
    ("Share Issuance_Amount (PHP)", "share_issuance_amount"),
    ("SEC License Type", "sec_license_type"),
    ("SEC Licnese Date", "sec_license_date"),
    ("SEC Ops start", "sec_ops_start"),
    ("BSP License Type", "bsp_license_type"),
    ("BSP Licnese Date", "bsp_license_date"),
    ("BSP Ops start", "bsp_ops_start"),
    ("IC License Type", "ic_license_type"),
    ("IC Licnese Date", "ic_license_date"),
    ("IC Ops start", "ic_ops_start"),
    ("Total Comp (PHP)", "total_compensation"),
    ("No Officers", "number_officers"),
    ("No Employees", "number_employees"),
    ("Total Manpower", "total_manpower"),
    ("UBO_Name", "ubo_name"),
    ("UBO_Address", "ubo_address"),
    ("UBO_Naitonality", "ubo_nationality"),
    ("UBO_DOB", "ubo_dob"),
    ("UBO_TIN", "ubo_tin"),
    ("UBO_% ownership", "ubo_ownership_percentage"),
    ("UBO_Type", "ubo_type"),
    ("UBO_Category", "ubo_category"),
    ("Director/Officer_INC'R", "director_officer_inc_r"),
    ("Director/Officer_Exec Comm.", "director_officer_exec_comm"),
    ("Stockholder_Total Shares Subscribed_No.", "stockholder_shares_subscribed_number"),
    ("Stockholder_Total Shares Subscribed_Amount (PHP)", "stockholder_shares_subscribed_amount"),
    ("Stockholder_Amount Paid (PHP)", "stockholder_amount_paid"),
    ("Share Issuance_Date", "share_issuance_date"),
    ("Share Issuance_No", "share_issuance_number") ]

/-- The `single_entry_fields` prefix/exact list, in source order. -/
def single_entry_fields : List String :=
  [ "UBO_",
    "Corporate Name",
    "AMLA Compliance Status",
    "Subscribed Capital_Total",
    "Paid-Up Capital_Total",
    "Total Number of Stockholders",
    "Number of Stockholders with ≥100 shares",
    "Total Assets (Latest Audited FS)",
    "Document Type",
    "For the year",
    "Business/Trade Name",
    "Date Registered",
    "Fiscal Year End",
    "SEC Registration Number",
    "Corporate TIN",
    "Website/URL",
    "Principal Office Address",
    "Business Address",
    "Official e-mail address",
    "Alternate Email Address",
    "Official Mobile Number",
    "Alternate Mobile Number",
    "Primary Purpose/Industry",
    "Industry Classification",
    "Geographical Code",
    "Parent Company Name",
    "Parent Company SEC Reg. No.",
    "Parent Company Address",
    "Subsidiary/Affiliate",
    "Subsidiary/Affiliate SEC Reg. No.",
    "Subsidiary/Affiliate Address",
    "External Auditor",
    "Auditor SEC Accreditation Number",
    "Covered Person (AML)" ]

/-- Python's `seen`-set dedup comprehension: keep the first occurrence. -/
def dedupSeen (seen : List String) : List String → List String
  | [] => []
  | x :: xs => if x ∈ seen then dedupSeen seen xs else x :: dedupSeen (x :: seen) xs

/-- `field_name.startswith(('Director/Officer', 'Stockholder', 'AMLA Category'))`. -/
def isRepeatable (field : String) : Bool :=
  strStarts field "Director/Officer" || strStarts field "Stockholder" ||
    strStarts field "AMLA Category"

/-- The numbered key for repeatable labels: the override stem when present and
non-empty, else the comprehensive transform, suffixed `"_" + count`. -/
def numberedKey (field : String) (count : Nat) : String :=
  match alookup field_mappings field with
  | some m =>
      if m ≠ "" then m ++ "_" ++ toString count
      else comprehensiveTransform field ++ "_" ++ toString count
  | none => comprehensiveTransform field ++ "_" ++ toString count

/-- The candidate list before the repeatable-prefix insertion: the exact
label, then the override stem (when present and non-empty) followed by the
four transforms, deduplicated keeping first occurrences. -/
def basePossibleKeys (field : String) : List String :=
  let bt :=
    match alookup field_mappings field with
    | some m => if m ≠ "" then m :: base_transforms field else base_transforms field
    | none => base_transforms field
  dedupSeen [] (field :: bt)

/-- `possible_keys` after the repeatable-prefix rule: the numbered key is
inserted at index 0 (after the dedup, exactly as in the source). -/
def possibleKeys (field : String) (count : Nat) : List String :=
  if isRepeatable field then numberedKey field count :: basePossibleKeys field
  else basePossibleKeys field

/-- `any(field_name.startswith(prefix) or field_name == prefix for prefix in
single_entry_fields)`. -/
def isSingleEntry (field : String) : Bool :=
  single_entry_fields.any fun p => strStarts field p || field == p

/-- The candidate scan: the first key present in the flat map resolves (its
value normalized); otherwise the resolved value stays `""`. -/
def scanKeys (flat : List (String × Prim)) : List String → String
  | [] => ""
  | k :: ks =>
      match alookup flat k with
      | some v => normalize_value v
      | none => scanKeys flat ks

/-- The per-row resolution precedence: single-entry label with count > 1 →
`""`; exact label overridden to the empty sentinel → `""`; else scan the
candidate list. -/
def resolveValue (flat : List (String × Prim)) (field : String) (count : Nat) :
    String :=
  if isSingleEntry field && decide (1 < count) then ""
  else if alookup field_mappings field = some "" then ""
  else scanKeys flat (possibleKeys field count)

/-- One emitted comparison row.  The source renders `simScore` as the string
`f"{score:.2%}"` for display; the exact rational is kept here. -/
structure CompRow where
  field : String
  jsonValue : String
  groundTruth : String
  status : Status
  simScore : ℚ
deriving DecidableEq

/-- `field_counters[field_name] += 1` (initializing to 0 first). -/
def bumpCount : List (String × Nat) → String → List (String × Nat)
  | [], f => [(f, 1)]
  | (g, n) :: rest, f =>
      if g = f then (g, n + 1) :: rest else (g, n) :: bumpCount rest f

/-- The row loop of `compare_with_ground_truth`: skip blank labels, bump the
occurrence counter, resolve, score, classify, and emit. -/
def compareAux (flat : List (String × Prim)) :
    List (String × Prim) → List (String × Nat) → List CompRow
  | [], _ => []
  | (fieldName, rawTruth) :: rest, counters =>
      if fieldName = "" || strTrim fieldName = "" then compareAux flat rest counters
      else
        let truthValue := normalize_value rawTruth
        let counters' := bumpCount counters fieldName
        let count := (alookup counters' fieldName).getD 0
        let flattenedValue := resolveValue flat fieldName count
        let score := similarity_score flattenedValue truthValue
        let st := classifyStatus flattenedValue truthValue score
        let displayField :=
          if 1 < count then fieldName ++ " (" ++ toString count ++ ")"
          else fieldName
        CompRow.mk displayField flattenedValue truthValue st score ::
          compareAux flat rest counters'

/-- The outcome of `compare_with_ground_truth`: on a malformed table the
source calls `st.error(msg)` and returns an empty DataFrame — modelled as
`uiErrorEmpty msg`; no exception is raised. -/
inductive CompareResult where
  | uiErrorEmpty : String → CompareResult
  | table : List CompRow → CompareResult
deriving DecidableEq

/-- `compare_with_ground_truth(flattened_data, ground_truth_df)`.  The table
is given by its column names and its rows projected to the `Field` cell and
the first value column's cell (the only cells the source reads). -/
def compare_with_ground_truth (flat : List (String × Prim)) (cols : List String)
    (rows : List (String × Prim)) : CompareResult :=
  if "Field" ∉ cols then
    .uiErrorEmpty "Ground truth data must have a 'Field' column"
  else if (cols.filter fun c => c != "Field").length < 1 then
    .uiErrorEmpty "Ground truth data must have at least 1 value column (ground truth)"
  else
    .table (compareAux flat rows [])

/-! ## Claims -/

/-- Claim C1: each emitted row's Status is classified first-match-wins: exact
string equality → PerfectMatch; else similarity > 0.9 → VeryClose; else
similarity > 0.7 → Similar; else an empty resolved value → MissingInJson;
else Mismatch.  In particular two empty strings classify as PerfectMatch (the
exact-match check precedes the empty-string check). -/
theorem claim_C1 (fv tv : String) :
    (fv = tv → statusOf fv tv = Status.perfectMatch) ∧
    (fv ≠ tv → mkRat 9 10 < similarity_score fv tv →
      statusOf fv tv = Status.veryClose) ∧
    (fv ≠ tv → ¬ mkRat 9 10 < similarity_score fv tv →
      mkRat 7 10 < similarity_score fv tv → statusOf fv tv = Status.similar) ∧
    (fv ≠ tv → ¬ mkRat 9 10 < similarity_score fv tv →
      ¬ mkRat 7 10 < similarity_score fv tv → fv = "" →
      statusOf fv tv = Status.missingInJson) ∧
    (fv ≠ tv → ¬ mkRat 9 10 < similarity_score fv tv →
      ¬ mkRat 7 10 < similarity_score fv tv → fv ≠ "" →
      statusOf fv tv = Status.mismatch) ∧
    statusOf "" "" = Status.perfectMatch := by
  refine ⟨fun h => ?_, fun h1 h2 => ?_, fun h1 h2 h3 => ?_,
    fun h1 h2 h3 h4 => ?_, fun h1 h2 h3 h4 => ?_, ?_⟩
  · unfold statusOf classifyStatus
    rw [if_pos h]
  · unfold statusOf classifyStatus
    rw [if_neg h1, if_pos h2]
  · unfold statusOf classifyStatus
    rw [if_neg h1, if_neg h2, if_pos h3]
  · unfold statusOf classifyStatus
    rw [if_neg h1, if_neg h2, if_neg h3, if_pos h4]
  · unfold statusOf classifyStatus
    rw [if_neg h1, if_neg h2, if_neg h3, if_neg h4]
  · decide

theorem claim_C1_witness :
    statusOf "a" "a" = Status.perfectMatch ∧
      statusOf "xy" "q" = Status.mismatch :=
  ⟨(claim_C1 "a" "a").1 rfl,
    (claim_C1 "xy" "q").2.2.2.2.1 (by decide) (by decide) (by decide) (by decide)⟩

/-- Claim C2: a ground-truth label matching the single-entry set (by prefix
or exact equality) with occurrence count > 1 resolves to the empty string
without consulting the flat map (the resolution is independent of `flat`);
and in the concrete scenario, flat map `{"business_trade_name": "Acme Inc"}`
with two "Corporate Name" rows yields PerfectMatch for the first row and an
empty resolved value with MissingInJson for the second. -/
theorem claim_C2 :
    (∀ (flat : List (String × Prim)) (label : String) (count : Nat),
        isSingleEntry label = true → 1 < count →
        resolveValue flat label count = "") ∧
    compare_with_ground_truth [("business_trade_name", Prim.str "Acme Inc")]
        ["Field", "Ground Truth"]
        [("Corporate Name", Prim.str "Acme Inc"),
          ("Corporate Name", Prim.str "Should Be Empty")] =
      CompareResult.table
        [ CompRow.mk "Corporate Name" "Acme Inc" "Acme Inc"
            Status.perfectMatch 1,
          CompRow.mk "Corporate Name (2)" "" "Should Be Empty"
            Status.missingInJson 0 ] := by
  constructor
  · intro flat label count h1 h2
    have hc : (isSingleEntry label && decide (1 < count)) = true := by
      rw [h1]
      simp [h2]
    unfold resolveValue
    rw [if_pos hc]
  · decide

theorem claim_C2_witness : resolveValue [] "Corporate Name" 2 = "" :=
  claim_C2.1 [] "Corporate Name" 2 (by decide) (by decide)

/-- Claim C3: a label starting with "Director/Officer", "Stockholder" or
"AMLA Category" gets a numbered key inserted at the front of the candidate
list — the override stem when the exact label has a non-empty override, else
the comprehensive transform, suffixed with `"_" + count`; and in the concrete
scenario both stockholder rows resolve to their numbered values with
PerfectMatch and the second row's display field is "Stockholder_Name (2)". -/
theorem claim_C3 :
    (∀ (label : String) (count : Nat), isRepeatable label = true →
        possibleKeys label count =
          numberedKey label count :: basePossibleKeys label ∧
        numberedKey label count =
          (match alookup field_mappings label with
            | some m => if m ≠ "" then m else comprehensiveTransform label
            | none => comprehensiveTransform label) ++ "_" ++ toString count) ∧
    compare_with_ground_truth
        [("stockholder_name_1", Prim.str "Alice"),
          ("stockholder_name_2", Prim.str "Bob")]
        ["Field", "Ground Truth"]
        [("Stockholder_Name", Prim.str "Alice"),
          ("Stockholder_Name", Prim.str "Bob")] =
      CompareResult.table
        [ CompRow.mk "Stockholder_Name" "Alice" "Alice" Status.perfectMatch 1,
          CompRow.mk "Stockholder_Name (2)" "Bob" "Bob" Status.perfectMatch 1 ] := by
  constructor
  · intro label count h
    constructor
    · unfold possibleKeys
      rw [if_pos h]
    · unfold numberedKey
      cases halo : alookup field_mappings label with
      | none => simp
      | some m =>
        by_cases hm : m = ""
        · subst hm; simp
        · simp [hm]
  · decide

theorem claim_C3_witness :
    possibleKeys "Stockholder_Name" 2 =
      numberedKey "Stockholder_Name" 2 :: basePossibleKeys "Stockholder_Name" :=
  (claim_C3.1 "Stockholder_Name" 2 (by decide)).1

/-- Claim C4 counterexample: on a table without a "Field" column the engine
does not surface a typed error to the caller — the source calls
`st.error(...)` (a UI log) and returns an empty DataFrame, modelled by the
`uiErrorEmpty` outcome; no exception propagates. -/
theorem claim_C4_counterexample :
    compare_with_ground_truth [] ["Ground Truth"] [] =
      CompareResult.uiErrorEmpty "Ground truth data must have a 'Field' column" := by
  decide

/-- Claim C4 (amended): for a table with no "Field" column, or with a "Field"
column but no value column, the engine logs the error message to the UI and
returns an empty comparison table as a substitute result; it does not raise. -/
theorem claim_C4 (flat : List (String × Prim)) (cols : List String)
    (rows : List (String × Prim)) :
    ("Field" ∉ cols →
      compare_with_ground_truth flat cols rows =
        CompareResult.uiErrorEmpty "Ground truth data must have a 'Field' column") ∧
    ("Field" ∈ cols → (cols.filter fun c => c != "Field") = [] →
      compare_with_ground_truth flat cols rows =
        CompareResult.uiErrorEmpty
          "Ground truth data must have at least 1 value column (ground truth)") := by
  constructor
  · intro h
    unfold compare_with_ground_truth
    rw [if_pos h]
  · intro h1 h2
    unfold compare_with_ground_truth
    rw [if_neg (fun hn => hn h1), if_pos (by rw [h2]; simp)]

theorem claim_C4_witness :
    compare_with_ground_truth [] ["Value"] [] =
      CompareResult.uiErrorEmpty "Ground truth data must have a 'Field' column" ∧
    compare_with_ground_truth [] ["Field"] [] =
      CompareResult.uiErrorEmpty
        "Ground truth data must have at least 1 value column (ground truth)" :=
  ⟨(claim_C4 [] ["Value"] []).1 (by decide),
    (claim_C4 [] ["Field"] []).2 (by decide) (by decide)⟩

/-- Claim C5: every value in the mapping produced by flattening any JSON
document is a scalar (Null, Bool, Number or String) — no dict or list
survives as a value — and an empty array at any path is represented by the
literal string `"[]"`. -/
theorem claim_C5 :
    (∀ j : Json, ∀ kv ∈ flatten_json_data j, kv.2.isScalar = true) ∧
    (∀ (j : Json) (p : String), ∀ kv ∈ flatten_dict j p, kv.2.isScalar = true) ∧
    (∀ p : String, flatten_dict (Json.arr []) p = [(p, Json.str "[]")]) :=
  ⟨fun j kv h => flatten_dict_scalar j "" kv h, flatten_dict_scalar,
    fun _ => rfl⟩

theorem claim_C5_witness :
    (("a", Json.str "[]") : String × Json).2.isScalar = true :=
  claim_C5.1 (Json.obj [("a", Json.arr [])]) ("a", Json.str "[]")
    (List.mem_singleton_self _)

/-- Claim C6: value normalization only trims whitespace and maps None to the
empty string; the literal strings "N/A", "null", "na" and "none" are kept
verbatim (the folding is commented out in the source).  Consequently a
resolved value "N/A" never classifies MissingInJson, and "N/A" against
ground truth "N/A" classifies PerfectMatch. -/
theorem claim_C6 :
    (∀ s : String, normalize_value (Prim.str s) = strTrim s) ∧
    normalize_value Prim.null = "" ∧
    normalize_value (Prim.str "N/A") = "N/A" ∧
    normalize_value (Prim.str "null") = "null" ∧
    normalize_value (Prim.str "na") = "na" ∧
    normalize_value (Prim.str "none") = "none" ∧
    (∀ gt : String, (statusOf "N/A" gt).isMissing = false) ∧
    statusOf "N/A" "N/A" = Status.perfectMatch := by
  refine ⟨fun s => rfl, rfl, by decide, by decide, by decide, by decide,
    fun gt => ?_, by decide⟩
  unfold statusOf classifyStatus
  split_ifs with h1 h2 h3 h4
  · rfl
  · rfl
  · rfl
  · exact absurd h4 (by decide)
  · rfl

set_option maxRecDepth 40000 in
/-- Claim C7: in `map_sec_gis_fields`, an absent source key yields the empty
string for its output field; a None value, or a value whose string form is
"null" in any letter case, yields the empty string; every other value
appears stringified.  Concretely for the GIS example document, "Document
Type" is "GIS", "Director/Officer 1 Name" is "X" and "Director/Officer 2
Name" is "". -/
theorem claim_C7 :
    (∀ (data : List (String × Prim)) (l sk : String), (l, sk) ∈ secCatalog →
        alookup data sk = none →
        alookup (map_sec_gis_fields data) l = some "") ∧
    (∀ (data : List (String × Prim)) (l sk : String), (l, sk) ∈ secCatalog →
        alookup data sk = some Prim.null →
        alookup (map_sec_gis_fields data) l = some "") ∧
    (∀ (data : List (String × Prim)) (l sk : String) (v : Prim),
        (l, sk) ∈ secCatalog → alookup data sk = some v →
        strLower (pyStr v) = "null" →
        alookup (map_sec_gis_fields data) l = some "") ∧
    (∀ (data : List (String × Prim)) (l sk : String) (v : Prim),
        (l, sk) ∈ secCatalog → alookup data sk = some v →
        v ≠ Prim.null → strLower (pyStr v) ≠ "null" →
        alookup (map_sec_gis_fields data) l = some (pyStr v)) ∧
    (alookup (map_sec_gis_fields
        [("document_type", Prim.str "GIS"),
          ("director_officer_name_1", Prim.str "X")]) "Document Type" =
        some "GIS" ∧
      alookup (map_sec_gis_fields
        [("document_type", Prim.str "GIS"),
          ("director_officer_name_1", Prim.str "X")]) "Director/Officer 1 Name" =
        some "X" ∧
      alookup (map_sec_gis_fields
        [("document_type", Prim.str "GIS"),
          ("director_officer_name_1", Prim.str "X")]) "Director/Officer 2 Name" =
        some "") := by
  refine ⟨?_, ?_, ?_, ?_, ?_, ?_, ?_⟩
  · intro data l sk hmem hnone
    rw [map_sec_lookup data hmem, hnone]
    rfl
  · intro data l sk hmem hnull
    rw [map_sec_lookup data hmem, hnull]
    rfl
  · intro data l sk v hmem hv hlow
    rw [map_sec_lookup data hmem, hv]
    cases v <;> simp [cleanVal, hlow]
  · intro data l sk v hmem hv hnull hlow
    rw [map_sec_lookup data hmem, hv]
    cases v with
    | null => exact absurd rfl hnull
    | bool b => simp [cleanVal, hlow]
    | int n => simp [cleanVal, hlow]
    | str s => simp [cleanVal, hlow]
  · rw [map_sec_lookup _ (mem_secCatalog_of_lookup
      (show alookup secEntries.reverse "Document Type" = some "document_type"
        by decide))]
    decide
  · rw [map_sec_lookup _ (mem_secCatalog_of_lookup
      (show alookup secEntries.reverse "Director/Officer 1 Name" =
          some "director_officer_name_1" by decide))]
    decide
  · rw [map_sec_lookup _ (mem_secCatalog_of_lookup
      (show alookup secEntries.reverse "Director/Officer 2 Name" =
          some "director_officer_name_2" by decide))]
    decide

set_option maxRecDepth 40000 in
theorem claim_C7_witness :
    alookup (map_sec_gis_fields []) "Corporate Name" = some "" :=
  claim_C7.1 [] "Corporate Name" "business_trade_name"
    (mem_secCatalog_of_lookup (by decide)) rfl

/-- Claim C8: similarity is 1 whenever the lowercased forms of the two
strings are equal — in particular `similarity(x, x) = 1` for every string
(the exact-equality shortcut) and `similarity("ABC", "abc") = 1` (through
the case-insensitive matcher path, the exact shortcut not having fired). -/
theorem claim_C8 :
    (∀ x : String, similarity_score x x = 1) ∧
    (∀ a b : String, strLower a = strLower b → similarity_score a b = 1) ∧
    similarity_score "ABC" "abc" = 1 :=
  ⟨similarity_score_self, similarity_score_lower_eq,
    similarity_score_lower_eq "ABC" "abc" (by decide)⟩

theorem claim_C8_witness : similarity_score "GIS" "gis" = 1 :=
  claim_C8.2.1 "GIS" "gis" (by decide)

set_option maxRecDepth 40000 in
/-- Claim C9: duplicate catalog labels follow final-value-wins — for every
input document the two "(from Stockholder detail pages)" output fields carry
the cleaned values of `filipino_subscribed_capital_amount_php_1` and
`filipino_paid_up_capital_amount_php_1`, the later assignments in the
source dict literal having silently overwritten the
`..._total_from_stockholders` ones. -/
theorem claim_C9 :
    (∀ data : List (String × Prim),
        alookup (map_sec_gis_fields data)
            "Subscribed Capital_Total (PHP) (from Stockholder detail pages)" =
          some (cleanVal (alookup data "filipino_subscribed_capital_amount_php_1")) ∧
        alookup (map_sec_gis_fields data)
            "Paid-Up Capital_Total (PHP) (from Stockholder detail pages)" =
          some (cleanVal (alookup data "filipino_paid_up_capital_amount_php_1"))) ∧
    alookup secCatalog
        "Subscribed Capital_Total (PHP) (from Stockholder detail pages)" =
      some "filipino_subscribed_capital_amount_php_1" ∧
    alookup secCatalog
        "Paid-Up Capital_Total (PHP) (from Stockholder detail pages)" =
      some "filipino_paid_up_capital_amount_php_1" := by
  have hm1 : ("Subscribed Capital_Total (PHP) (from Stockholder detail pages)",
      "filipino_subscribed_capital_amount_php_1") ∈ secCatalog :=
    mem_secCatalog_of_lookup (by decide)
  have hm2 : ("Paid-Up Capital_Total (PHP) (from Stockholder detail pages)",
      "filipino_paid_up_capital_amount_php_1") ∈ secCatalog :=
    mem_secCatalog_of_lookup (by decide)
  refine ⟨fun data => ⟨map_sec_lookup data hm1, map_sec_lookup data hm2⟩, ?_, ?_⟩
  · unfold secCatalog
    rw [alookup_pydict]
    decide
  · unfold secCatalog
    rw [alookup_pydict]
    decide

/-- Claim C10: an empty object contributes no key at all to the flattened
result — `flatten({"a": {}})` is the empty map — while an empty array at the
same position yields the literal string `"[]"` under the parent key. -/
theorem claim_C10 :
    (∀ p : String, flatten_dict (Json.obj []) p = []) ∧
    flatten_json_data (Json.obj [("a", Json.obj [])]) = [] ∧
    flatten_json_data (Json.obj [("a", Json.arr [])]) = [("a", Json.str "[]")] :=
  ⟨fun _ => rfl, rfl, rfl⟩

end GisApp
